import Mathlib

/-!
# Verification of the iplocate Temporal workflow repository

Shallow embedding of the repository's workflow and activity code.

* Activities (`activities.go`): `GetIP`, `GetLocationInfo`, `GetTimeZone`,
  `RecordLookup`, `CompensateLookup`.  Each HTTP activity is modelled as a
  function from the outcome of its single outbound exchange to the value or
  error it returns, paired with the list of URLs it requests.
* Workflows: `GetAddressFromIPClean` (versioned workflow), `GetAddressFromIPV2`
  (saga-style workflow with `RecordLookup`), `IPMonitorWorkflow` (signal/query
  monitor loop) and the `IPLookupWorkflow` query handlers.
* Workflows consume an environment giving the result of each capability
  invocation and emit a trace of `Step` events (activity invocations,
  sleeps, version-marker reads, signal applications, timer firings), so that
  invocation counts, ordering and frame conditions can be stated.
-/

namespace Iplocate

/-- One observable event of a workflow execution: an activity invocation
(with its string argument, if any), a durable sleep, a version-marker read,
the application of a received signal, or a timer firing. -/
inductive Step where
  | activity (name : String) (arg : Option String)
  | sleep (seconds : Nat)
  | versionRead (changeId : String) (minV maxV result : Int)
  | signal (name : String)
  | timer
deriving Repr, DecidableEq

/-- `workflow.DefaultVersion` of the Temporal Go SDK. -/
def defaultVersion : Int := -1

/-! ## Activity layer (`activities.go`) -/

/-- Outcome of the single HTTP exchange of an activity that consumes the raw
body (`GetIP`): the HTTP GET fails, reading the body fails, or a body is
obtained. -/
inductive RawFetch where
  | httpError (e : String)
  | readError (e : String)
  | body (s : String)
deriving Repr, DecidableEq

/-- Outcome of the single HTTP exchange of a JSON activity: HTTP failure,
body-read failure, JSON unmarshal failure, or a parsed response of type `α`. -/
inductive JSONFetch (α : Type) where
  | httpError (e : String)
  | readError (e : String)
  | parseError (e : String)
  | parsed (val : α)
deriving Repr, DecidableEq

/-- The fields of the ip-api.com response that `GetLocationInfo` decodes. -/
structure LocationResponse where
  status : String
  message : String
  city : String
  region : String
  country : String
deriving Repr, DecidableEq

/-- The fields of the ip-api.com response that `GetTimeZone` decodes. -/
structure TimezoneResponse where
  status : String
  message : String
  timezone : String
deriving Repr, DecidableEq

/-- `IPActivities.GetIP`: one GET to api.ipify.org; on success returns the
trimmed body, errors are returned unwrapped.  The second component is the
list of URLs requested during the call. -/
def GetIP (outcome : RawFetch) : Except String String × List String :=
  (match outcome with
    | .httpError e => .error e
    | .readError e => .error e
    | .body b => .ok b.trim,
   ["https://api.ipify.org"])

/-- `IPActivities.GetLocationInfo`: one GET to ip-api.com for the given ip;
fails on HTTP/read/unmarshal errors and on provider status `"fail"`,
otherwise formats the city/region/country string. -/
def GetLocationInfo (ip : String) (outcome : JSONFetch LocationResponse) :
    Except String String × List String :=
  (match outcome with
    | .httpError e => .error ("HTTP GET error: " ++ e)
    | .readError e => .error ("read body error: " ++ e)
    | .parseError e => .error ("JSON unmarshal error: " ++ e)
    | .parsed d =>
        if d.status == "fail" then .error ("API error: " ++ d.message)
        else .ok ("City: " ++ d.city ++ ", Region: " ++ d.region ++
                  ", Country: " ++ d.country),
   ["http://ip-api.com/json/" ++ ip])

/-- `IPActivities.GetTimeZone`: one GET to ip-api.com with a timezone field
selector; fails on HTTP/read/unmarshal errors and on provider status
`"fail"`, otherwise returns the timezone field. -/
def GetTimeZone (ip : String) (outcome : JSONFetch TimezoneResponse) :
    Except String String × List String :=
  (match outcome with
    | .httpError e => .error ("HTTP GET error: " ++ e)
    | .readError e => .error ("read body error: " ++ e)
    | .parseError e => .error ("JSON unmarshal error: " ++ e)
    | .parsed d =>
        if d.status == "fail" then .error ("API error: " ++ d.message)
        else .ok d.timezone,
   ["http://ip-api.com/json/" ++ ip ++ "?fields=timezone"])

/-- `IPActivities.RecordLookup`: builds the correlation token from the unix
time and the ip, stores it in the in-process cache and returns it. -/
def RecordLookup (now : Nat) (cache : List (String × String)) (ip : String) :
    String × List (String × String) :=
  let recordId := toString now ++ "-" ++ ip
  (recordId, (recordId, ip) :: cache.filter (fun p => !(p.1 == recordId)))

/-- `IPActivities.CompensateLookup`: removes the record for the token from
the cache if present; always returns without error. -/
def CompensateLookup (cache : List (String × String)) (recordId : String) :
    List (String × String) :=
  cache.filter (fun p => !(p.1 == recordId))

/-! ## The versioned workflow (`GetAddressFromIPClean`) -/

/-- `WorkflowResult`: required `location` field plus the optional
(`omitempty`) `timezone` field. -/
structure WorkflowResult where
  Location : String
  Timezone : String
deriving Repr, DecidableEq

/-- Output of one workflow run: the returned value, the returned error
(`none` = nil error) and the trace of steps the run performed. -/
structure RunOutput (α : Type) where
  value : α
  err : Option String
  trace : List Step
deriving Repr, DecidableEq

/-- Environment of one `GetAddressFromIPClean` run: the result each
capability invocation would produce, and the value the
`"add-timezone-feature"` version-marker read returns for this instance. -/
structure CleanEnv where
  getIP : Except String String
  addTimezoneVersion : Int
  getLocationInfo : String → Except String String
  getTimeZone : String → Except String String

/-- `GetAddressFromIPClean`: fetch IP, sleep 45s, read the
`"add-timezone-feature"` version marker with bounds
(`workflow.DefaultVersion`, 1), fetch location, and fetch the timezone only
when the version equals 1; every error return carries the zero
`WorkflowResult`. -/
def GetAddressFromIPClean (env : CleanEnv) : RunOutput WorkflowResult :=
  match env.getIP with
  | .error e =>
      ⟨⟨"", ""⟩, some ("failed to get ip: " ++ e), [.activity "GetIP" none]⟩
  | .ok ip =>
    let version := env.addTimezoneVersion
    let pre : List Step :=
      [.activity "GetIP" none, .sleep 45,
       .versionRead "add-timezone-feature" defaultVersion 1 version]
    match env.getLocationInfo ip with
    | .error e =>
        ⟨⟨"", ""⟩, some ("failed to get location: " ++ e),
         pre ++ [.activity "GetLocationInfo" (some ip)]⟩
    | .ok location =>
      if version == 1 then
        match env.getTimeZone ip with
        | .error e =>
            ⟨⟨"", ""⟩, some ("failed to get timezone: " ++ e),
             pre ++ [.activity "GetLocationInfo" (some ip),
                     .activity "GetTimeZone" (some ip)]⟩
        | .ok timezone =>
            ⟨⟨location, timezone⟩, none,
             pre ++ [.activity "GetLocationInfo" (some ip),
                     .activity "GetTimeZone" (some ip)]⟩
      else
        ⟨⟨location, ""⟩, none, pre ++ [.activity "GetLocationInfo" (some ip)]⟩

/-- Recognizes an invocation of the timezone activity in a trace. -/
def isTimeZoneStep : Step → Bool
  | .activity n _ => n == "GetTimeZone"
  | _ => false

/-- Environment of the C2 concrete scenario: identity resolves to
203.0.113.5, the version marker reads 1, the location provider answers with
city X / region Y / country Z, the timezone provider answers UTC; the
activity results are computed by the activity models themselves. -/
def c2Env : CleanEnv where
  getIP := .ok "203.0.113.5"
  addTimezoneVersion := 1
  getLocationInfo := fun ip =>
    (GetLocationInfo ip (.parsed ⟨"success", "", "X", "Y", "Z"⟩)).1
  getTimeZone := fun ip =>
    (GetTimeZone ip (.parsed ⟨"success", "", "UTC"⟩)).1

/-- Claim C1: whenever the `"add-timezone-feature"` version-marker read
returns a value at or above the threshold 1 (and, per the SDK contract, at
most the declared maximum 1), a run of `GetAddressFromIPClean` that reaches
the location fetch successfully invokes the timezone activity exactly once,
immediately after the location fetch — never zero times and never twice. -/
theorem c1_timezone_invoked_exactly_once (env : CleanEnv) (ip loc : String)
    (hip : env.getIP = .ok ip) (hloc : env.getLocationInfo ip = .ok loc)
    (hge : 1 ≤ env.addTimezoneVersion) (hle : env.addTimezoneVersion ≤ 1) :
    (GetAddressFromIPClean env).trace =
      [.activity "GetIP" none, .sleep 45,
       .versionRead "add-timezone-feature" defaultVersion 1
         env.addTimezoneVersion,
       .activity "GetLocationInfo" (some ip),
       .activity "GetTimeZone" (some ip)] ∧
    (GetAddressFromIPClean env).trace.filter isTimeZoneStep =
      [.activity "GetTimeZone" (some ip)] := by
  have hv : env.addTimezoneVersion = 1 := le_antisymm hle hge
  cases htz : env.getTimeZone ip <;>
    simp [GetAddressFromIPClean, hip, hloc, hv, htz, isTimeZoneStep,
      List.filter]

/-- Witness for C1 at the concrete C2 environment. -/
theorem c1_witness :
    c2Env.getIP = .ok "203.0.113.5" ∧
    c2Env.getLocationInfo "203.0.113.5" = .ok "City: X, Region: Y, Country: Z" ∧
    1 ≤ c2Env.addTimezoneVersion ∧ c2Env.addTimezoneVersion ≤ 1 ∧
    ((GetAddressFromIPClean c2Env).trace =
      [.activity "GetIP" none, .sleep 45,
       .versionRead "add-timezone-feature" defaultVersion 1
         c2Env.addTimezoneVersion,
       .activity "GetLocationInfo" (some "203.0.113.5"),
       .activity "GetTimeZone" (some "203.0.113.5")] ∧
    (GetAddressFromIPClean c2Env).trace.filter isTimeZoneStep =
      [.activity "GetTimeZone" (some "203.0.113.5")]) :=
  ⟨rfl, rfl, by decide, by decide,
   c1_timezone_invoked_exactly_once c2Env "203.0.113.5"
     "City: X, Region: Y, Country: Z" rfl rfl (by decide) (by decide)⟩

/-- Claim C3: whenever the version-marker read returns the default
(pre-feature) version, a run of `GetAddressFromIPClean` whose identity and
location fetches succeed performs no timezone invocation at all and
completes with a nil error and an empty `Timezone` field. -/
theorem c3_default_version_skips_timezone (env : CleanEnv) (ip loc : String)
    (hip : env.getIP = .ok ip) (hloc : env.getLocationInfo ip = .ok loc)
    (hv : env.addTimezoneVersion = defaultVersion) :
    (GetAddressFromIPClean env).err = none ∧
    (GetAddressFromIPClean env).value = { Location := loc, Timezone := "" } ∧
    (GetAddressFromIPClean env).trace.filter isTimeZoneStep = [] := by
  simp [GetAddressFromIPClean, hip, hloc, hv, defaultVersion, isTimeZoneStep,
    List.filter]

/-- Environment of the C3 scenario: same input as C2 but the instance reads
the default version (it was created before the feature existed). -/
def c3Env : CleanEnv where
  getIP := .ok "203.0.113.5"
  addTimezoneVersion := defaultVersion
  getLocationInfo := fun ip =>
    (GetLocationInfo ip (.parsed ⟨"success", "", "X", "Y", "Z"⟩)).1
  getTimeZone := fun ip =>
    (GetTimeZone ip (.parsed ⟨"success", "", "UTC"⟩)).1

/-- Witness for C3 at the concrete pre-feature environment. -/
theorem c3_witness :
    c3Env.getIP = .ok "203.0.113.5" ∧
    c3Env.getLocationInfo "203.0.113.5" = .ok "City: X, Region: Y, Country: Z" ∧
    c3Env.addTimezoneVersion = defaultVersion ∧
    ((GetAddressFromIPClean c3Env).err = none ∧
    (GetAddressFromIPClean c3Env).value =
      { Location := "City: X, Region: Y, Country: Z", Timezone := "" } ∧
    (GetAddressFromIPClean c3Env).trace.filter isTimeZoneStep = []) :=
  ⟨rfl, rfl, rfl,
   c3_default_version_skips_timezone c3Env "203.0.113.5"
     "City: X, Region: Y, Country: Z" rfl rfl rfl⟩

/-- Claim C10: whenever `GetAddressFromIPClean` returns a non-nil error, the
`WorkflowResult` paired with it is the zero value: empty `Location` and
empty `Timezone`. -/
theorem c10_error_returns_zero_result (env : CleanEnv)
    (h : (GetAddressFromIPClean env).err ≠ none) :
    (GetAddressFromIPClean env).value = { Location := "", Timezone := "" } := by
  cases hip : env.getIP with
  | error e => simp [GetAddressFromIPClean, hip]
  | ok ip =>
    cases hloc : env.getLocationInfo ip with
    | error e => simp [GetAddressFromIPClean, hip, hloc]
    | ok loc =>
      by_cases hv : env.addTimezoneVersion == 1
      · cases htz : env.getTimeZone ip with
        | error e => simp [GetAddressFromIPClean, hip, hloc, hv, htz]
        | ok tz => simp [GetAddressFromIPClean, hip, hloc, hv, htz] at h
      · simp [GetAddressFromIPClean, hip, hloc, hv] at h

/-- Environment whose identity fetch fails, exhibiting an error run. -/
def c10Env : CleanEnv where
  getIP := .error "connection refused"
  addTimezoneVersion := 1
  getLocationInfo := fun _ => .error "unreachable"
  getTimeZone := fun _ => .error "unreachable"

/-- Witness for C10 at a run whose identity fetch fails. -/
theorem c10_witness :
    (GetAddressFromIPClean c10Env).err ≠ none ∧
    (GetAddressFromIPClean c10Env).value =
      { Location := "", Timezone := "" } :=
  ⟨by decide, c10_error_returns_zero_result c10Env (by decide)⟩

/-- Claim C2: in the concrete scenario (identity "203.0.113.5", version
marker 1, location response city X / region Y / country Z, timezone "UTC")
`GetAddressFromIPClean` returns
`{location: "City: X, Region: Y, Country: Z", timezone: "UTC"}` with a nil
error. -/
theorem c2_concrete_scenario :
    (GetAddressFromIPClean c2Env).value =
      { Location := "City: X, Region: Y, Country: Z", Timezone := "UTC" } ∧
    (GetAddressFromIPClean c2Env).err = none := by
  constructor <;> rfl

/-! ## The saga-style workflow (`GetAddressFromIPV2` of the record/compensate
variant) -/

/-- The `Data` record returned by the record/compensate variant of
`GetAddressFromIPV2`. -/
structure Data where
  Result : String
  Location : String
  Zone : String
deriving Repr, DecidableEq

/-- Environment of one `GetAddressFromIPV2` run: the result of each
capability invocation. -/
structure V2Env where
  getIP : Except String String
  recordLookup : String → Except String String
  getLocationInfo : String → Except String String
  getTimeZone : String → Except String String

/-- `GetAddressFromIPV2` (record/compensate variant): fetch IP, record the
lookup obtaining a correlation token, sleep 30s, fetch location, fetch
timezone; every failure returns the error directly — no `CompensateLookup`
invocation appears anywhere in the function body. -/
def GetAddressFromIPV2 (env : V2Env) : RunOutput Data :=
  match env.getIP with
  | .error e =>
      ⟨⟨"", "", ""⟩, some ("failed to get ip: " ++ e),
       [.activity "GetIP" none]⟩
  | .ok ip =>
    match env.recordLookup ip with
    | .error e =>
        ⟨⟨"", "", ""⟩, some ("failed to record lookup: " ++ e),
         [.activity "GetIP" none, .activity "RecordLookup" (some ip)]⟩
    | .ok _recordedIp =>
      let pre : List Step :=
        [.activity "GetIP" none, .activity "RecordLookup" (some ip),
         .sleep 30]
      match env.getLocationInfo ip with
      | .error e =>
          ⟨⟨"", "", ""⟩, some ("failed to get location: " ++ e),
           pre ++ [.activity "GetLocationInfo" (some ip)]⟩
      | .ok location =>
        match env.getTimeZone ip with
        | .error e =>
            ⟨⟨"", "", ""⟩, some ("failed to get timezone: " ++ e),
             pre ++ [.activity "GetLocationInfo" (some ip),
                     .activity "GetTimeZone" (some ip)]⟩
        | .ok zone =>
            ⟨⟨ip, location, zone⟩, none,
             pre ++ [.activity "GetLocationInfo" (some ip),
                     .activity "GetTimeZone" (some ip)]⟩

/-- Recognizes an invocation of the `RecordLookup` activity in a trace. -/
def isRecordStep : Step → Bool
  | .activity n _ => n == "RecordLookup"
  | _ => false

/-- Recognizes an invocation of the `CompensateLookup` activity in a
trace. -/
def isCompensateStep : Step → Bool
  | .activity n _ => n == "CompensateLookup"
  | _ => false

/-- Environment exhibiting the C4 failure path: the record step succeeds
and the subsequent location fetch fails. -/
def c4Env : V2Env where
  getIP := .ok "203.0.113.5"
  recordLookup := fun ip => .ok ("1730880005-" ++ ip)
  getLocationInfo := fun _ => .error "HTTP GET error: connection refused"
  getTimeZone := fun _ => .error "unreachable"

/-- Counterexample to C4: a run of `GetAddressFromIPV2` that performs
`RecordLookup` and then suffers a capability failure propagates the failure
without any `CompensateLookup` invocation in its trace. -/
theorem c4_counterexample :
    ((GetAddressFromIPV2 c4Env).trace.filter isRecordStep).length = 1 ∧
    (GetAddressFromIPV2 c4Env).err ≠ none ∧
    (GetAddressFromIPV2 c4Env).trace.filter isCompensateStep = [] := by
  refine ⟨?_, ?_, ?_⟩ <;> decide

/-- Amended C4: no execution of `GetAddressFromIPV2` ever invokes
`CompensateLookup`; in particular a failure after a successful
`RecordLookup` is propagated without compensation. -/
theorem c4_no_compensation_ever (env : V2Env) :
    (GetAddressFromIPV2 env).trace.filter isCompensateStep = [] := by
  cases hip : env.getIP with
  | error e => simp [GetAddressFromIPV2, hip, isCompensateStep, List.filter]
  | ok ip =>
    cases hrec : env.recordLookup ip with
    | error e =>
        simp [GetAddressFromIPV2, hip, hrec, isCompensateStep, List.filter]
    | ok tok =>
      cases hloc : env.getLocationInfo ip with
      | error e =>
          simp [GetAddressFromIPV2, hip, hrec, hloc, isCompensateStep,
            List.filter]
      | ok loc =>
        cases htz : env.getTimeZone ip <;>
          simp [GetAddressFromIPV2, hip, hrec, hloc, htz, isCompensateStep,
            List.filter]

/-! ## Result-schema serialization (C6) -/

/-- JSON encoding of `WorkflowResult` at the field level, following the
struct tags: `location` always present, `timezone` omitted when empty
(`omitempty`). -/
def encodeWorkflowResult (r : WorkflowResult) : List (String × String) :=
  ("location", r.Location) ::
    (if r.Timezone == "" then [] else [("timezone", r.Timezone)])

/-- JSON decoding of `WorkflowResult` following Go `json.Unmarshal`
semantics: a missing field is left at its zero value, unknown fields are
ignored, and decoding is total (never fails). -/
def decodeWorkflowResult (obj : List (String × String)) : WorkflowResult :=
  { Location := (obj.lookup "location").getD ""
  , Timezone := (obj.lookup "timezone").getD "" }

/-- Encoding of a result produced by old (pre-timezone) code: only the
`location` field is written. -/
def encodeOldSchemaResult (location : String) : List (String × String) :=
  [("location", location)]

/-- A reader using the old schema: it only looks at the `location` field and
ignores every other field; it is total (never fails). -/
def decodeOldSchemaResult (obj : List (String × String)) : String :=
  (obj.lookup "location").getD ""

/-- Claim C6: every `WorkflowResult` round-trips through serialization,
whether `Timezone` is present or empty; an old-schema record (no timezone
field) decodes under the full schema without failure, yielding an empty
`Timezone`; and a new-schema record decodes under the old reader without
failure, yielding its `Location`. -/
theorem c6_result_roundtrip (r : WorkflowResult) (loc : String) :
    decodeWorkflowResult (encodeWorkflowResult r) = r ∧
    decodeWorkflowResult (encodeOldSchemaResult loc) =
      { Location := loc, Timezone := "" } ∧
    decodeOldSchemaResult (encodeWorkflowResult r) = r.Location := by
  refine ⟨?_, ?_, ?_⟩
  · obtain ⟨l, t⟩ := r
    by_cases hz : t = "" <;>
      simp [encodeWorkflowResult, decodeWorkflowResult, hz, List.lookup]
  · simp [encodeOldSchemaResult, decodeWorkflowResult, List.lookup]
  · by_cases hz : r.Timezone = "" <;>
      simp [encodeWorkflowResult, decodeOldSchemaResult, hz, List.lookup]

/-! ## The capability layer as single exchanges (C7) -/

/-- A raw fetch counts as failed when the HTTP GET or the body read
failed. -/
def rawFetchFails : RawFetch → Bool
  | .httpError _ => true
  | .readError _ => true
  | .body _ => false

/-- A JSON fetch counts as failed when the HTTP GET, the body read or the
unmarshal failed, or the provider reported logical failure
(status `"fail"`). -/
def jsonFetchFails {α : Type} (status : α → String) : JSONFetch α → Bool
  | .httpError _ => true
  | .readError _ => true
  | .parseError _ => true
  | .parsed d => status d == "fail"

/-- Tests whether an activity result is an error. -/
def isErrorResult (r : Except String String) : Bool :=
  match r with
  | .error _ => true
  | .ok _ => false

/-- Claim C7: each of `GetIP`, `GetLocationInfo` and `GetTimeZone` performs
exactly one outbound request (no internal retry), errors exactly when the
HTTP request fails, the body cannot be read or parsed, or the provider
reports status `"fail"`, and otherwise returns the extracted value (the
trimmed body, the formatted location string, the timezone field). -/
theorem c7_single_exchange_error_iff (ip : String) (o1 : RawFetch)
    (o2 : JSONFetch LocationResponse) (o3 : JSONFetch TimezoneResponse) :
    (GetIP o1).2.length = 1 ∧
    (GetLocationInfo ip o2).2.length = 1 ∧
    (GetTimeZone ip o3).2.length = 1 ∧
    isErrorResult (GetIP o1).1 = rawFetchFails o1 ∧
    isErrorResult (GetLocationInfo ip o2).1 =
      jsonFetchFails LocationResponse.status o2 ∧
    isErrorResult (GetTimeZone ip o3).1 =
      jsonFetchFails TimezoneResponse.status o3 ∧
    (∀ b, o1 = .body b → (GetIP o1).1 = .ok b.trim) ∧
    (∀ d, o2 = .parsed d → d.status ≠ "fail" →
      (GetLocationInfo ip o2).1 =
        .ok ("City: " ++ d.city ++ ", Region: " ++ d.region ++
             ", Country: " ++ d.country)) ∧
    (∀ d, o3 = .parsed d → d.status ≠ "fail" →
      (GetTimeZone ip o3).1 = .ok d.timezone) := by
  refine ⟨rfl, rfl, rfl, ?_, ?_, ?_, ?_, ?_, ?_⟩
  · cases o1 <;> rfl
  · cases o2 with
    | parsed d =>
        by_cases h : d.status = "fail" <;>
          simp [GetLocationInfo, jsonFetchFails, isErrorResult, h]
    | _ => rfl
  · cases o3 with
    | parsed d =>
        by_cases h : d.status = "fail" <;>
          simp [GetTimeZone, jsonFetchFails, isErrorResult, h]
    | _ => rfl
  · rintro b rfl; rfl
  · rintro d rfl h; simp [GetLocationInfo, h]
  · rintro d rfl h; simp [GetTimeZone, h]

/-! ## The monitor workflow (`IPMonitorWorkflow`) -/

/-- One recorded lookup of the monitor (`HistoryEntry`); time is modelled
as a natural number. -/
structure HistoryEntry where
  Timestamp : Nat
  IP : String
  Location : String
  Error : String
deriving Repr, DecidableEq

/-- The mutable in-memory state of one `IPMonitorWorkflow` instance. -/
structure MonitorState where
  currentIP : String
  checkInterval : Nat
  isPaused : Bool
  shouldStop : Bool
  totalChecks : Nat
  history : List HistoryEntry
  lastCheckTime : Nat
  lastResult : String
deriving Repr, DecidableEq

/-- The snapshot returned by the `"status"` query (`MonitorStatus`). -/
structure MonitorStatus where
  State : String
  CurrentIP : String
  CheckInterval : Nat
  TotalChecks : Nat
  LastCheckTime : Nat
  LastResult : String
  History : List HistoryEntry
deriving Repr, DecidableEq

/-- Initial state built from a `MonitorConfig` at workflow start. -/
def initialMonitorState (initialIP : String) (checkInterval : Nat) :
    MonitorState :=
  { currentIP := initialIP, checkInterval := checkInterval,
    isPaused := false, shouldStop := false, totalChecks := 0,
    history := [], lastCheckTime := 0, lastResult := "" }

/-- An event the main loop's selector can wake up on: one of the five
signals, or the check timer firing. -/
inductive MonitorEvent where
  | pause
  | resume
  | changeIP (newIP : String)
  | changeInterval (d : Nat)
  | stop
  | timerFired
deriving Repr, DecidableEq

/-- The trace marker emitted when the selector delivers an event. -/
def eventMarker : MonitorEvent → Step
  | .pause => .signal "pause"
  | .resume => .signal "resume"
  | .changeIP _ => .signal "change-ip"
  | .changeInterval _ => .signal "change-interval"
  | .stop => .signal "stop"
  | .timerFired => .timer

/-- The state update performed by the signal handler registered for each
event; the timer handler does nothing. -/
def applySignal (s : MonitorState) : MonitorEvent → MonitorState
  | .pause => { s with isPaused := true }
  | .resume => { s with isPaused := false }
  | .changeIP newIP => { s with currentIP := newIP }
  | .changeInterval d => { s with checkInterval := d }
  | .stop => { s with shouldStop := true }
  | .timerFired => s

/-- Environment of a monitor run: the location-lookup result and the
workflow logical clock reading for the n-th check. -/
structure MonitorEnv where
  getLocationInfo : Nat → String → Except String String
  now : Nat → Nat

/-- The check performed by one unpaused loop iteration: invoke
`GetLocationInfo` on the current IP, build the history entry, append it,
bound the history to the last 50 entries, bump the counters. -/
def doCheck (env : MonitorEnv) (s : MonitorState) :
    MonitorState × List Step :=
  let checkTime := env.now s.totalChecks
  let outcome := env.getLocationInfo s.totalChecks s.currentIP
  let entry : HistoryEntry :=
    match outcome with
    | .error e =>
        { Timestamp := checkTime, IP := s.currentIP, Location := "",
          Error := e }
    | .ok loc =>
        { Timestamp := checkTime, IP := s.currentIP, Location := loc,
          Error := "" }
  let newLastResult :=
    match outcome with
    | .error e => "ERROR: " ++ e
    | .ok loc => loc
  let h := s.history ++ [entry]
  let h2 := if h.length > 50 then h.drop (h.length - 50) else h
  ({ s with
      history := h2
      totalChecks := s.totalChecks + 1
      lastCheckTime := checkTime
      lastResult := newLastResult },
   [.activity "GetLocationInfo" (some s.currentIP)])

/-- One iteration of the main loop after the top-of-loop stop checks: the
selector delivers one event, the matching signal handler updates the state,
and then the iteration either skips the check (paused) or performs it. -/
def stepMonitor (env : MonitorEnv) (s : MonitorState) (ev : MonitorEvent) :
    MonitorState × List Step :=
  let s1 := applySignal s ev
  if s1.isPaused then (s1, [eventMarker ev])
  else ((doCheck env s1).1, eventMarker ev :: (doCheck env s1).2)

/-- The main monitoring loop over a finite schedule of delivered events:
each iteration first applies the stop-signal and max-checks break
conditions, then runs `stepMonitor` on the next event. -/
def monitorLoop (env : MonitorEnv) (maxChecks : Nat) :
    MonitorState → List MonitorEvent → MonitorState × List Step
  | s, [] => (s, [])
  | s, ev :: rest =>
    if s.shouldStop then (s, [])
    else if maxChecks > 0 ∧ maxChecks ≤ s.totalChecks then (s, [])
    else
      ((monitorLoop env maxChecks (stepMonitor env s ev).1 rest).1,
       (stepMonitor env s ev).2 ++
         (monitorLoop env maxChecks (stepMonitor env s ev).1 rest).2)

/-! ### Query handlers

Each handler is modelled as a function from the current in-memory state to
the triple (answer, state after the handler ran, capability/suspension
steps performed by the handler), so that the frame condition of C5 is a
statement about the embedding rather than an artifact of its type. -/

/-- The `"status"` query handler of `IPMonitorWorkflow`. -/
def monitorStatusHandler (s : MonitorState) :
    MonitorStatus × MonitorState × List Step :=
  ({ State :=
       if s.isPaused then "paused"
       else if s.shouldStop then "stopped"
       else "running",
     CurrentIP := s.currentIP, CheckInterval := s.checkInterval,
     TotalChecks := s.totalChecks, LastCheckTime := s.lastCheckTime,
     LastResult := s.lastResult, History := s.history }, s, [])

/-- The `"history"` query handler of `IPMonitorWorkflow`. -/
def monitorHistoryHandler (s : MonitorState) :
    List HistoryEntry × MonitorState × List Step :=
  (s.history, s, [])

/-- The `"stats"` query handler of `IPMonitorWorkflow` (the map values are
rendered to strings). -/
def monitorStatsHandler (s : MonitorState) :
    List (String × String) × MonitorState × List Step :=
  ([("total_checks", toString s.totalChecks),
    ("current_ip", s.currentIP),
    ("is_paused", toString s.isPaused),
    ("check_interval", toString s.checkInterval ++ "s"),
    ("last_check_time", toString s.lastCheckTime)], s, [])

/-- The in-memory state of one `IPLookupWorkflow` instance: the two
variables its query handlers close over. -/
structure LookupState where
  status : String
  result : String
deriving Repr, DecidableEq

/-- The `"status"` query handler of `IPLookupWorkflow`. -/
def lookupStatusHandler (s : LookupState) :
    String × LookupState × List Step :=
  (s.status, s, [])

/-- The `"result"` query handler of `IPLookupWorkflow`. -/
def lookupResultHandler (s : LookupState) :
    String × LookupState × List Step :=
  (s.result, s, [])

/-- Claim C5: every query handler (`status`/`history`/`stats` of
`IPMonitorWorkflow` and `status`/`result` of `IPLookupWorkflow`) leaves the
workflow state unchanged, performs no capability invocation and no
suspension, and computes its answer purely from the in-memory state. -/
theorem c5_queries_pure (s : MonitorState) (ls : LookupState) :
    (monitorStatusHandler s).2.1 = s ∧
    (monitorStatusHandler s).2.2 = [] ∧
    (monitorStatusHandler s).1.History = s.history ∧
    (monitorStatusHandler s).1.CurrentIP = s.currentIP ∧
    (monitorHistoryHandler s).2.1 = s ∧
    (monitorHistoryHandler s).2.2 = [] ∧
    (monitorHistoryHandler s).1 = s.history ∧
    (monitorStatsHandler s).2.1 = s ∧
    (monitorStatsHandler s).2.2 = [] ∧
    (lookupStatusHandler ls).2.1 = ls ∧
    (lookupStatusHandler ls).2.2 = [] ∧
    (lookupStatusHandler ls).1 = ls.status ∧
    (lookupResultHandler ls).2.1 = ls ∧
    (lookupResultHandler ls).2.2 = [] ∧
    (lookupResultHandler ls).1 = ls.result := by
  refine ⟨rfl, rfl, rfl, rfl, rfl, rfl, rfl, rfl, rfl, rfl, rfl, rfl, rfl,
    rfl, rfl⟩

/-! ### Lemmas about the monitor loop -/

/-- Signal handlers never touch the history. -/
lemma applySignal_history (s : MonitorState) (ev : MonitorEvent) :
    (applySignal s ev).history = s.history := by
  cases ev <;> rfl

/-- The state reached by one loop iteration. -/
lemma stepMonitor_fst (env : MonitorEnv) (s : MonitorState)
    (ev : MonitorEvent) :
    (stepMonitor env s ev).1 =
      if (applySignal s ev).isPaused then applySignal s ev
      else (doCheck env (applySignal s ev)).1 := by
  unfold stepMonitor
  by_cases hp : (applySignal s ev).isPaused = true <;> simp [hp]

/-- The history produced by one check: the new entry is appended and the
list is truncated to its last 50 elements when it exceeds the bound. -/
lemma doCheck_history_spec (env : MonitorEnv) (s : MonitorState) :
    ∃ e, (doCheck env s).1.history =
      if s.history.length + 1 > 50
      then (s.history ++ [e]).drop (s.history.length + 1 - 50)
      else s.history ++ [e] := by
  refine ⟨(match env.getLocationInfo s.totalChecks s.currentIP with
    | .error e =>
        { Timestamp := env.now s.totalChecks, IP := s.currentIP,
          Location := "", Error := e }
    | .ok loc =>
        { Timestamp := env.now s.totalChecks, IP := s.currentIP,
          Location := loc, Error := "" }), ?_⟩
  unfold doCheck
  simp

/-- Unfolding of a loop iteration that is not stopped. -/
lemma monitorLoop_cons (env : MonitorEnv) (maxChecks : Nat)
    (s : MonitorState) (ev : MonitorEvent) (rest : List MonitorEvent)
    (hs : s.shouldStop = false)
    (hm : ¬(maxChecks > 0 ∧ maxChecks ≤ s.totalChecks)) :
    monitorLoop env maxChecks s (ev :: rest) =
      ((monitorLoop env maxChecks (stepMonitor env s ev).1 rest).1,
       (stepMonitor env s ev).2 ++
         (monitorLoop env maxChecks (stepMonitor env s ev).1 rest).2) := by
  simp [monitorLoop, hs, hm]

/-- While the monitor is paused (and not stopped), timer firings are
absorbed: the state is unchanged and only timer markers are emitted. -/
lemma monitorLoop_timer_absorb (env : MonitorEnv) (maxChecks : Nat)
    (n : Nat) (s : MonitorState) (rest : List MonitorEvent)
    (hp : s.isPaused = true) (hs : s.shouldStop = false)
    (hm : ¬(maxChecks > 0 ∧ maxChecks ≤ s.totalChecks)) :
    monitorLoop env maxChecks s (List.replicate n .timerFired ++ rest) =
      ((monitorLoop env maxChecks s rest).1,
       List.replicate n .timer ++ (monitorLoop env maxChecks s rest).2) := by
  induction n with
  | zero => simp
  | succ k ih =>
    rw [List.replicate_succ, List.cons_append,
      monitorLoop_cons env maxChecks s .timerFired _ hs hm]
    have hstep : stepMonitor env s .timerFired = (s, [Step.timer]) := by
      simp [stepMonitor, applySignal, eventMarker, hp]
    rw [hstep, ih, List.replicate_succ]
    simp

/-- One loop iteration keeps the history at no more than 50 entries and
either leaves it unchanged or appends the new entry, keeping only the most
recent entries in order. -/
lemma stepMonitor_history_spec (env : MonitorEnv) (s : MonitorState)
    (ev : MonitorEvent) (h : s.history.length ≤ 50) :
    (stepMonitor env s ev).1.history.length ≤ 50 ∧
    ((stepMonitor env s ev).1.history = s.history ∨
      ∃ e, (stepMonitor env s ev).1.history <:+ (s.history ++ [e]) ∧
        (stepMonitor env s ev).1.history.length =
          min 50 (s.history.length + 1)) := by
  have hs1 : (applySignal s ev).history = s.history :=
    applySignal_history s ev
  rw [stepMonitor_fst]
  by_cases hp : (applySignal s ev).isPaused = true
  · rw [if_pos hp, hs1]
    exact ⟨h, Or.inl rfl⟩
  · rw [if_neg hp]
    obtain ⟨e, he⟩ := doCheck_history_spec env (applySignal s ev)
    rw [hs1] at he
    rw [he]
    by_cases hlen : s.history.length + 1 > 50
    · simp only [if_pos hlen]
      refine ⟨?_, Or.inr ⟨e, List.drop_suffix _ _, ?_⟩⟩ <;>
        · rw [List.length_drop, List.length_append, List.length_singleton]
          omega
    · simp only [if_neg hlen]
      refine ⟨?_, Or.inr ⟨e, List.suffix_refl _, ?_⟩⟩ <;>
        · rw [List.length_append, List.length_singleton]
          omega

/-- The history bound propagates through any run of the monitor loop. -/
lemma monitorLoop_history_le (env : MonitorEnv) (maxChecks : Nat)
    (events : List MonitorEvent) :
    ∀ s : MonitorState, s.history.length ≤ 50 →
      (monitorLoop env maxChecks s events).1.history.length ≤ 50 := by
  induction events with
  | nil => exact fun s h => h
  | cons ev rest ih =>
    intro s h
    simp only [monitorLoop]
    split
    · exact h
    · split
      · exact h
      · exact ih _ (stepMonitor_history_spec env s ev h).1

/-- Claim C9 (implicit invariant): every loop iteration keeps the
in-memory history at no more than 50 entries — either unchanged (paused
iteration) or with the new entry appended and only the most recent entries
kept, in order (the kept history is a suffix of the appended history of
length `min 50 (old length + 1)`) — and consequently the history of any run
of `IPMonitorWorkflow` from its initial (empty-history) state holds at most
50 entries after every iteration. -/
theorem c9_history_bounded (env : MonitorEnv) (s : MonitorState)
    (ev : MonitorEvent) (ip : String) (iv maxChecks : Nat)
    (events : List MonitorEvent) (h : s.history.length ≤ 50) :
    ((stepMonitor env s ev).1.history.length ≤ 50 ∧
    ((stepMonitor env s ev).1.history = s.history ∨
      ∃ e, (stepMonitor env s ev).1.history <:+ (s.history ++ [e]) ∧
        (stepMonitor env s ev).1.history.length =
          min 50 (s.history.length + 1))) ∧
    (monitorLoop env maxChecks (initialMonitorState ip iv)
      events).1.history.length ≤ 50 :=
  ⟨stepMonitor_history_spec env s ev h,
   monitorLoop_history_le env maxChecks events _ (by simp [initialMonitorState])⟩

/-- Environment used by the C9 witness. -/
def c9Env : MonitorEnv where
  getLocationInfo := fun _ _ =>
    .ok "City: Mountain View, Region: California, Country: US"
  now := fun n => n

/-- Witness for C9: one checking iteration from the initial state, and a
two-event run. -/
theorem c9_witness :
    (initialMonitorState "8.8.8.8" 5).history.length ≤ 50 ∧
    (((stepMonitor c9Env (initialMonitorState "8.8.8.8" 5)
        .timerFired).1.history.length ≤ 50 ∧
     ((stepMonitor c9Env (initialMonitorState "8.8.8.8" 5)
         .timerFired).1.history = (initialMonitorState "8.8.8.8" 5).history ∨
       ∃ e, (stepMonitor c9Env (initialMonitorState "8.8.8.8" 5)
           .timerFired).1.history <:+
             ((initialMonitorState "8.8.8.8" 5).history ++ [e]) ∧
         (stepMonitor c9Env (initialMonitorState "8.8.8.8" 5)
             .timerFired).1.history.length =
           min 50 ((initialMonitorState "8.8.8.8" 5).history.length + 1))) ∧
    (monitorLoop c9Env 0 (initialMonitorState "9.9.9.9" 7)
      [.timerFired, .timerFired]).1.history.length ≤ 50) :=
  ⟨by decide,
   c9_history_bounded c9Env (initialMonitorState "8.8.8.8" 5) .timerFired
     "9.9.9.9" 7 0 [.timerFired, .timerFired] (by decide)⟩

/-- Claim C8: signals delivered in the order `pause`, `change-ip("X")`,
`resume` — with any number of timer firings interleaved after the pause —
are applied by the monitor loop in exactly that order: afterwards the
instance is unpaused, its monitored target is `"X"`, and the trace shows no
capability invocation between the application of `pause` and the
application of `resume` (only timer markers), followed by the check the
resumed iteration performs on the new target. -/
theorem c8_signal_order (env : MonitorEnv) (maxChecks : Nat)
    (s : MonitorState) (x : String) (n1 n2 : Nat)
    (hs : s.shouldStop = false)
    (hm : maxChecks = 0 ∨ s.totalChecks < maxChecks) :
    (monitorLoop env maxChecks s
      (MonitorEvent.pause :: (List.replicate n1 .timerFired ++
        (MonitorEvent.changeIP x :: (List.replicate n2 .timerFired ++
          [MonitorEvent.resume]))))).1.isPaused = false ∧
    (monitorLoop env maxChecks s
      (MonitorEvent.pause :: (List.replicate n1 .timerFired ++
        (MonitorEvent.changeIP x :: (List.replicate n2 .timerFired ++
          [MonitorEvent.resume]))))).1.currentIP = x ∧
    (monitorLoop env maxChecks s
      (MonitorEvent.pause :: (List.replicate n1 .timerFired ++
        (MonitorEvent.changeIP x :: (List.replicate n2 .timerFired ++
          [MonitorEvent.resume]))))).2 =
      Step.signal "pause" :: (List.replicate n1 Step.timer ++
        (Step.signal "change-ip" :: (List.replicate n2 Step.timer ++
          [Step.signal "resume",
           Step.activity "GetLocationInfo" (some x)]))) := by
  have hm' : ¬(maxChecks > 0 ∧ maxChecks ≤ s.totalChecks) := by
    rcases hm with h0 | hlt <;> omega
  have e1 : stepMonitor env s .pause =
      ({ s with isPaused := true }, [Step.signal "pause"]) := by
    simp [stepMonitor, applySignal, eventMarker]
  rw [monitorLoop_cons env maxChecks s .pause _ hs hm', e1]
  rw [monitorLoop_timer_absorb env maxChecks n1 { s with isPaused := true }
    _ rfl hs hm']
  have e2 : stepMonitor env { s with isPaused := true } (.changeIP x) =
      ({ s with isPaused := true, currentIP := x },
       [Step.signal "change-ip"]) := by
    simp [stepMonitor, applySignal, eventMarker]
  rw [monitorLoop_cons env maxChecks { s with isPaused := true }
    (.changeIP x) _ hs hm', e2]
  rw [monitorLoop_timer_absorb env maxChecks n2
    { s with isPaused := true, currentIP := x } _ rfl hs hm']
  rw [monitorLoop_cons env maxChecks
    { s with isPaused := true, currentIP := x } .resume [] hs hm']
  have e3 : stepMonitor env { s with isPaused := true, currentIP := x }
      .resume =
      ((doCheck env { s with isPaused := false, currentIP := x }).1,
       [Step.signal "resume",
        Step.activity "GetLocationInfo" (some x)]) := by
    simp [stepMonitor, applySignal, eventMarker, doCheck]
  rw [e3]
  refine ⟨?_, ?_, ?_⟩
  · simp [monitorLoop, doCheck]
  · simp [monitorLoop, doCheck]
  · simp [monitorLoop]

/-- Environment used by the C8 witness. -/
def c8Env : MonitorEnv where
  getLocationInfo := fun _ _ =>
    .ok "City: San Francisco, Region: California, Country: US"
  now := fun n => n

/-- Witness for C8: pause, one timer firing, change-ip to 1.1.1.1, resume,
from the initial monitor state with unlimited checks. -/
theorem c8_witness :
    (initialMonitorState "8.8.8.8" 5).shouldStop = false ∧
    ((0 : Nat) = 0 ∨ (initialMonitorState "8.8.8.8" 5).totalChecks < 0) ∧
    ((monitorLoop c8Env 0 (initialMonitorState "8.8.8.8" 5)
      (MonitorEvent.pause :: (List.replicate 1 .timerFired ++
        (MonitorEvent.changeIP "1.1.1.1" :: (List.replicate 0 .timerFired ++
          [MonitorEvent.resume]))))).1.isPaused = false ∧
    (monitorLoop c8Env 0 (initialMonitorState "8.8.8.8" 5)
      (MonitorEvent.pause :: (List.replicate 1 .timerFired ++
        (MonitorEvent.changeIP "1.1.1.1" :: (List.replicate 0 .timerFired ++
          [MonitorEvent.resume]))))).1.currentIP = "1.1.1.1" ∧
    (monitorLoop c8Env 0 (initialMonitorState "8.8.8.8" 5)
      (MonitorEvent.pause :: (List.replicate 1 .timerFired ++
        (MonitorEvent.changeIP "1.1.1.1" :: (List.replicate 0 .timerFired ++
          [MonitorEvent.resume]))))).2 =
      Step.signal "pause" :: (List.replicate 1 Step.timer ++
        (Step.signal "change-ip" :: (List.replicate 0 Step.timer ++
          [Step.signal "resume",
           Step.activity "GetLocationInfo" (some "1.1.1.1")])))) :=
  ⟨rfl, Or.inl rfl,
   c8_signal_order c8Env 0 (initialMonitorState "8.8.8.8" 5) "1.1.1.1" 1 0
     rfl (Or.inl rfl)⟩

end Iplocate
